import Mathlib

/-!
# Verification of the recipe ingredient-matching and ranking engine

Shallow embedding of the scoring and recommendation pipeline from
`ai model/incase.py`.  Python floats are modelled as exact rationals (ℚ);
Python sets of strings are modelled as deduplicated lists (only membership
and cardinality of a set are ever used by the source).  The classifier,
meal-type and relevance models are opaque oracles in the source and are
modelled as function parameters; a call that can raise is modelled in the
`Except` monad.
-/

/-- `SUBSTITUTIONS` dictionary (incase.py lines 12-24). -/
def SUBSTITUTIONS : List (String × List String) :=
  [("milk", ["almond milk", "soy milk", "oat milk", "coconut milk"]),
   ("butter", ["margarine", "coconut oil", "olive oil"]),
   ("sugar", ["honey", "maple syrup", "agave nectar", "brown sugar"]),
   ("egg", ["egg substitute", "flax egg"]),
   ("flour", ["almond flour", "coconut flour", "whole wheat flour"]),
   ("salt", ["sea salt", "kosher salt"]),
   ("baking powder", ["baking soda"]),
   ("cheese", ["colby jack", "monterey jack", "cheddar", "mozzerella"]),
   ("cream", ["coconut cream", "cashew cream", "sour cream"]),
   ("vanilla extract", ["vanilla bean", "vanilla paste"]),
   ("oil", ["canola oil", "vegetable oil"])]

/-- `SAMPLE_INGREDIENTS` (incase.py line 26). -/
def SAMPLE_INGREDIENTS : List String := ["yeast", "flour"]

/-- `DEFAULT_INGREDIENTS` (incase.py line 27). -/
def DEFAULT_INGREDIENTS : List String :=
  ["salt", "water", "oil", "pepper", "warm water", "salt and pepper", "salt pepper"]

/-- Python `s.lower().strip()`, the normalization applied to every
ingredient string throughout `ingredient_match_score`: lowercase every
character, then drop leading and trailing whitespace.  Written on the
character list (rather than through `String.trim`, whose well-founded
recursion does not reduce in the kernel) so concrete instances evaluate. -/
def lowerStrip (s : String) : String :=
  String.mk ((((s.data.map Char.toLower).dropWhile Char.isWhitespace).reverse.dropWhile
    Char.isWhitespace).reverse)

/-- `user_explicit = set(i.lower().strip() for i in user_ingredients)`
(incase.py line 57).  A Python set of strings, as a deduplicated list. -/
def user_explicit_of (user_ingredients : List String) : List String :=
  (user_ingredients.map lowerStrip).dedup

/-- `augmented_user_set = user_explicit | DEFAULT_INGREDIENTS`
(incase.py line 59).  Only membership in this set is ever queried, so the
plain append is an adequate model of the union. -/
def augmented_of (user_ingredients : List String) : List String :=
  user_explicit_of user_ingredients ++ DEFAULT_INGREDIENTS

/-- `recipe_non_default = {r.lower().strip() for r in recipe_ingredients
if r.lower().strip() not in DEFAULT_INGREDIENTS}` (incase.py line 62). -/
def recipe_non_default_of (recipe_ingredients : List String) : List String :=
  ((recipe_ingredients.map lowerStrip).filter
    (fun r => !(DEFAULT_INGREDIENTS.contains r))).dedup

/-- The `matched` accumulation loop of the flexible branch
(incase.py lines 76-83): each recipe ingredient contributes 1 on a direct
match against the augmented set, else (when substitutions are allowed and
the normalized name is a key of `SUBSTITUTIONS`) 1/2 when some substitute
is in the augmented set, else 0. -/
def matched_score (user_ingredients recipe_ingredients : List String)
    (substitutions_allowed : Bool) : ℚ :=
  recipe_ingredients.foldl (fun matched ingr =>
    if (augmented_of user_ingredients).contains (lowerStrip ingr) then matched + 1
    else if substitutions_allowed then
      match SUBSTITUTIONS.lookup (lowerStrip ingr) with
      | some subs =>
          if subs.any (fun sub => (augmented_of user_ingredients).contains (lowerStrip sub)) then
            matched + 1/2
          else matched
      | none => matched
    else matched) 0

/-- The explicit-pantry bonus of the flexible branch (incase.py lines
87-92): the number of recipe ingredients (duplicates included) whose
normalized form is in the explicit user set, divided by the size of that
set; 0 when the explicit set is empty. -/
def bonus_of (user_ingredients recipe_ingredients : List String) : ℚ :=
  if (user_explicit_of user_ingredients).isEmpty then 0
  else
    ((recipe_ingredients.filter
        (fun ingr => (user_explicit_of user_ingredients).contains (lowerStrip ingr))).length : ℚ) /
      ((user_explicit_of user_ingredients).length : ℚ)

/-- `ingredient_match_score` (incase.py lines 29-96).  Strict branch: 1 iff
every non-default normalized recipe ingredient is in the explicit user set,
else 0.  Flexible branch: 1 on the empty recipe, otherwise
`min (matched/total * (1 + beta*bonus)) 1`. -/
def ingredient_match_score (user_ingredients recipe_ingredients : List String)
    (substitutions_allowed user_willing_to_buy_more : Bool)
    (beta : ℚ := 1/5) : ℚ :=
  if !user_willing_to_buy_more then
    if !((recipe_non_default_of recipe_ingredients).all
          (fun r => (user_explicit_of user_ingredients).contains r)) then 0
    else 1
  else if recipe_ingredients.length = 0 then 1
  else
    let base_score :=
      matched_score user_ingredients recipe_ingredients substitutions_allowed /
        (recipe_ingredients.length : ℚ)
    let bonus_factor := 1 + beta * bonus_of user_ingredients recipe_ingredients
    min (base_score * bonus_factor) 1

/-- Python `s.lower()`, as applied by pandas `.str.lower()` to predicted
labels and by the orchestrator to the requested cuisine.  Written on the
character list so concrete instances evaluate in the kernel. -/
def pyLower (s : String) : String := String.mk (s.data.map Char.toLower)

/-- A recipe row of the corpus, with the string-encoded list fields already
parsed into sequences (the data-loading `eval` plumbing of incase.py lines
210-221 is outside the scoring core; the loader hands over parsed lists). -/
structure Recipe where
  id : String
  name : String
  ingredients : List String
  ingredients_raw : List String
  steps : List String
deriving DecidableEq

/-- `ingredients_text` column (incase.py lines 217-218). -/
def ingredients_text (r : Recipe) : String := String.intercalate " " r.ingredients

/-- `ingredients_raw_text` column (incase.py lines 214-215). -/
def ingredients_raw_text (r : Recipe) : String := String.intercalate " " r.ingredients_raw

/-- `steps_text` column (incase.py lines 220-221). -/
def steps_text (r : Recipe) : String := String.intercalate " " r.steps

/-- `full_text = ingredients_text + " " + ingredients_raw_text + " " + steps_text`
(incase.py line 223). -/
def full_text (r : Recipe) : String :=
  ingredients_text r ++ " " ++ ingredients_raw_text r ++ " " ++ steps_text r

/-- The batched classifier loop (incase.py lines 227-242).  The source
predicts in order-preserving chunks of 500; per the oracle contract the
result is independent of chunk size, so the loop is modelled as a pointwise
monadic map.  A classifier call that raises is an `Except.error`. -/
def predict_batched (clf : String → Except String String) (texts : List String) :
    Except String (List String) :=
  texts.mapM clf

/-- The cuisine/meal-type row filter (incase.py lines 245-248): keep the
recipes whose lowercased predicted labels equal the selected cuisine and
selected meal type, the predicted labels being carried positionally. -/
def matching_of (corpus : List Recipe) (cuisines meal_types : List String)
    (selected_cuisine selected_meal_type : String) : List Recipe :=
  (((corpus.zip cuisines).zip meal_types).filter (fun x =>
    (pyLower x.1.2 == selected_cuisine) && (pyLower x.2 == selected_meal_type))).map
    (fun x => x.1.1)

/-- Step 1 of `get_recommendations` (incase.py lines 225-248): predict a
cuisine for every recipe from its raw-ingredient text, predict a meal type
for every recipe from its full text, and keep the label-matching recipes. -/
def corpus_filter (cuisine_clf meal_clf : String → Except String String)
    (selected_cuisine selected_meal_type : String) (corpus : List Recipe) :
    Except String (List Recipe) := do
  let cuisines ← predict_batched cuisine_clf (corpus.map ingredients_raw_text)
  let meal_types ← predict_batched meal_clf (corpus.map full_text)
  pure (matching_of corpus cuisines meal_types selected_cuisine selected_meal_type)

/-- `USER_TO_CATEGORY` (incase.py lines 191-196). -/
def USER_TO_CATEGORY : List (String × String) :=
  [("Breakfast", "breakfast"), ("Full Meal", "meals"),
   ("Sweet Treat", "sweet treat"), ("Snack", "snacks")]

/-- The user-preference fields `get_recommendations` consumes (incase.py
lines 190-201), already coerced: `servings` as a number, the two policy
flags as booleans. -/
structure Prefs where
  cuisine : String
  meal_type : String
  servings : ℚ
  ingredients : List String
  allow_substitutions : Bool
  use_grocery : Bool
deriving DecidableEq

/-- `USER_TO_CATEGORY.get(prefs["meal_type"], "unknown")` (incase.py line 197). -/
def selected_meal_type_of (prefs : Prefs) : String :=
  (USER_TO_CATEGORY.lookup prefs.meal_type).getD "unknown"

/-- `list(set(ingr_list) | set(raw_ingr))` (incase.py line 277): the
deduplicated union of the canonical and raw ingredient lists.  Python
enumerates a set in unspecified order; the embedding fixes one
duplicate-free enumeration (the score is a function of the multiset only). -/
def effective_ingredients (r : Recipe) : List String :=
  (r.ingredients ++ r.ingredients_raw).dedup

/-- Step 2 of `get_recommendations` (incase.py lines 265-284): score every
matching recipe on the union of its two ingredient lists with the in-scope
user ingredient list and the two policy flags, `beta=0.2`. -/
def score_stage (user_ingredients : List String)
    (allow_substitutions use_grocery : Bool) (recipes : List Recipe) :
    List (Recipe × ℚ) :=
  recipes.map (fun r =>
    (r, ingredient_match_score user_ingredients (effective_ingredients r)
          allow_substitutions use_grocery (1/5)))

/-- Strict-mode feasibility filtering (incase.py lines 287-288): when the
user is not willing to buy more, keep only `ingredient_score > 0`. -/
def kept_of (use_grocery : Bool) (scored : List (Recipe × ℚ)) : List (Recipe × ℚ) :=
  if !use_grocery then scored.filter (fun rs => decide ((0 : ℚ) < rs.2)) else scored

/-- A fully ranked recipe row: the recipe plus its `ingredient_score`,
`model_score` and `final_score` columns. -/
structure Ranked where
  recipe : Recipe
  ingredient_score : ℚ
  model_score : ℚ
  final_score : ℚ
deriving DecidableEq

/-- Step 3 of `get_recommendations` (incase.py lines 297-344): query the
relevance model once per remaining recipe with its full text and the
requested servings, defaulting to 0 when the model has no score for the
recipe's identifier (lines 320-327); `final_score = 0.95*ingredient_score
+ 0.05*model_score` (line 330); sort descending by `final_score` (line
333 — the source's `sort_values` leaves tie order unspecified, see the
default-quicksort caveat; the embedding fixes one descending order); then
top pick and up to 10 alternates (lines 336-344). -/
def rank_stage (infer : String → ℚ → String → Except String (Option ℚ))
    (requested_servings : ℚ) (kept : List (Recipe × ℚ)) :
    Except String (Option Ranked × Option (List Ranked)) := do
  let model_scores ← kept.mapM (fun rs => infer (full_text rs.1) requested_servings rs.1.id)
  let ranked := (kept.zip model_scores).map (fun x =>
    ({ recipe := x.1.1, ingredient_score := x.1.2, model_score := x.2.getD 0,
       final_score := x.1.2 * (19/20) + x.2.getD 0 * (1/20) } : Ranked))
  let sorted := ranked.mergeSort (fun a b => decide (b.final_score ≤ a.final_score))
  match sorted with
  | [] => pure (none, none)
  | top :: rest => pure (some top, some (rest.take 10))

/-- The body of `get_recommendations` (incase.py lines 175-344), i.e. the
code inside the `try`.  Line 186 overwrites the preference ingredients
with `SAMPLE_INGREDIENTS` before scoring, so the scoring stage receives
the sample list.  Any oracle exception aborts the body as `Except.error`. -/
def get_recommendations_body (cuisine_clf meal_clf : String → Except String String)
    (infer : String → ℚ → String → Except String (Option ℚ))
    (prefs : Prefs) (recipe_db : List Recipe) :
    Except String (Option Ranked × Option (List Ranked)) := do
  let matching ← corpus_filter cuisine_clf meal_clf (pyLower prefs.cuisine)
      (selected_meal_type_of prefs) recipe_db
  if matching.isEmpty then pure (none, none)
  else
    let scored := score_stage SAMPLE_INGREDIENTS prefs.allow_substitutions
      prefs.use_grocery matching
    let kept := kept_of prefs.use_grocery scored
    if !prefs.use_grocery && kept.isEmpty then pure (none, none)
    else rank_stage infer prefs.servings kept

/-- `get_recommendations` (incase.py lines 175-350): the body wrapped in
the `try/except` of lines 346-350, which catches every exception and
returns `None, None`. -/
def get_recommendations (cuisine_clf meal_clf : String → Except String String)
    (infer : String → ℚ → String → Except String (Option ℚ))
    (prefs : Prefs) (recipe_db : List Recipe) :
    Option Ranked × Option (List Ranked) :=
  match get_recommendations_body cuisine_clf meal_clf infer prefs recipe_db with
  | Except.ok result => result
  | Except.error _ => (none, none)

/-- Per-ingredient credit rule exactly as the specification words it
(spec §4.2 step 4, claim C3): 1 for a direct match against the augmented
set, else — when substitutions are allowed and the normalized name has a
substitution-table entry — 1/2 when any substitute (normalized) is in the
augmented set, else 0.  Refinement target compared against the `matched`
loop of the source. -/
def match_contribution (augmented : List String) (substitutions_allowed : Bool)
    (ingr : String) : ℚ :=
  if augmented.contains (lowerStrip ingr) then 1
  else if substitutions_allowed then
    match SUBSTITUTIONS.lookup (lowerStrip ingr) with
    | some subs =>
        if subs.any (fun sub => augmented.contains (lowerStrip sub)) then 1/2 else 0
    | none => 0
  else 0

/-- The Corpus Filter as claim C7 describes it: a SINGLE feature text —
the concatenation of canonical-ingredient text, raw-ingredient text and
step text — fed to BOTH oracles.  Refinement target compared against
`corpus_filter`, which feeds the cuisine oracle only the raw-ingredient
text. -/
def corpus_filter_claimed (cuisine_clf meal_clf : String → Except String String)
    (selected_cuisine selected_meal_type : String) (corpus : List Recipe) :
    Except String (List Recipe) := do
  let cuisines ← predict_batched cuisine_clf (corpus.map full_text)
  let meal_types ← predict_batched meal_clf (corpus.map full_text)
  pure (matching_of corpus cuisines meal_types selected_cuisine selected_meal_type)

/-! ## Concrete fixtures used by witnesses and counterexamples -/

/-- A classifier oracle that always answers `label`. -/
def const_clf (label : String) : String → Except String String :=
  fun _ => Except.ok label

/-- A classifier oracle whose call raises. -/
def fail_clf : String → Except String String :=
  fun _ => Except.error "classifier failure"

/-- A relevance oracle with no score for any recipe identifier. -/
def none_infer : String → ℚ → String → Except String (Option ℚ) :=
  fun _ _ _ => Except.ok none

/-- A concrete recipe with duplicate and overlapping ingredient listings,
used to exercise the effective-ingredient union. -/
def breadRecipe : Recipe :=
  { id := "42", name := "bread", ingredients := ["flour", "flour", "yeast"],
    ingredients_raw := ["flour", "water"], steps := ["mix", "bake"] }

/-- A concrete recipe whose raw-ingredient text and full feature text
differ, used to separate the two oracle inputs. -/
def snackRecipe : Recipe :=
  { id := "7", name := "snack", ingredients := ["a"], ingredients_raw := ["b"],
    steps := ["c"] }

/-- A cuisine oracle that answers "italian" exactly on the raw-ingredient
text of `snackRecipe` and "french" on every other feature text. -/
def raw_sensitive_clf : String → Except String String :=
  fun s => if s = "b" then Except.ok "italian" else Except.ok "french"

/-- A concrete recipe that is infeasible in strict mode for the sample
ingredient list (its non-default ingredients are not all owned). -/
def richRecipe : Recipe :=
  { id := "9", name := "cake", ingredients := ["egg", "sugar"],
    ingredients_raw := [], steps := ["bake"] }

/-- Concrete preferences: french snacks, strict mode, no substitutions. -/
def frenchSnackPrefs : Prefs :=
  { cuisine := "French", meal_type := "Snack", servings := 4, ingredients := [],
    allow_substitutions := false, use_grocery := false }

/-- Concrete preferences used by the oracle-failure scenarios. -/
def italianMealPrefs : Prefs :=
  { cuisine := "Italian", meal_type := "Full Meal", servings := 2,
    ingredients := [], allow_substitutions := true, use_grocery := true }

/-! ## Helper lemmas -/

/-- `lowerStrip` fixes the already-normalized literal "milk". -/
theorem lowerStrip_milk : lowerStrip "milk" = "milk" := by decide

/-- `lowerStrip` fixes the already-normalized literal "flour". -/
theorem lowerStrip_flour : lowerStrip "flour" = "flour" := by decide

/-- Folding an addition of per-element credits equals the initial value
plus the sum of the credits. -/
theorem foldl_add_eq_sum (g : String → ℚ) (l : List String) :
    ∀ a : ℚ, l.foldl (fun acc i => acc + g i) a = a + (l.map g).sum := by
  induction l with
  | nil => intro a; simp
  | cons x xs ih => intro a; simp [ih, add_assoc]

/-- The accumulation step of `matched_score` adds exactly the
`match_contribution` of the ingredient. -/
theorem matched_step_eq (augmented : List String) (s : Bool) (acc : ℚ) (ingr : String) :
    (if augmented.contains (lowerStrip ingr) then acc + 1
     else if s then
       match SUBSTITUTIONS.lookup (lowerStrip ingr) with
       | some subs =>
           if subs.any (fun sub => augmented.contains (lowerStrip sub)) then acc + 1/2
           else acc
       | none => acc
     else acc) = acc + match_contribution augmented s ingr := by
  unfold match_contribution
  cases hc : augmented.contains (lowerStrip ingr) <;> cases s <;>
      cases hl : SUBSTITUTIONS.lookup (lowerStrip ingr) <;>
      simp only [hc, hl, Bool.false_eq_true, Bool.true_eq_false, if_true, if_false,
        ite_true, ite_false] <;>
    first
      | (split_ifs <;> ring)
      | ring

/-- The `matched` accumulator is the sum of the per-ingredient credits. -/
theorem matched_score_eq_sum (u r : List String) (s : Bool) :
    matched_score u r s = ((r.map (match_contribution (augmented_of u) s)).sum) := by
  unfold matched_score
  have h : (fun (matched : ℚ) (ingr : String) =>
      if (augmented_of u).contains (lowerStrip ingr) then matched + 1
      else if s then
        match SUBSTITUTIONS.lookup (lowerStrip ingr) with
        | some subs =>
            if subs.any (fun sub => (augmented_of u).contains (lowerStrip sub)) then
              matched + 1/2
            else matched
        | none => matched
      else matched) =
      fun (matched : ℚ) (ingr : String) => matched + match_contribution (augmented_of u) s ingr := by
    funext acc ingr
    exact matched_step_eq (augmented_of u) s acc ingr
  rw [h, foldl_add_eq_sum]
  simp

/-- Every per-ingredient credit is non-negative. -/
theorem match_contribution_nonneg (augmented : List String) (s : Bool) (ingr : String) :
    0 ≤ match_contribution augmented s ingr := by
  unfold match_contribution
  split
  · norm_num
  · split
    · split
      · split <;> norm_num
      · norm_num
    · norm_num

/-- The `matched` accumulator is non-negative. -/
theorem matched_score_nonneg (u r : List String) (s : Bool) :
    0 ≤ matched_score u r s := by
  rw [matched_score_eq_sum]
  apply List.sum_nonneg
  intro x hx
  rcases List.mem_map.mp hx with ⟨i, _, rfl⟩
  exact match_contribution_nonneg _ _ _

/-- The explicit-pantry bonus is non-negative. -/
theorem bonus_of_nonneg (u r : List String) : 0 ≤ bonus_of u r := by
  unfold bonus_of
  split
  · norm_num
  · positivity

/-- The `matched` accumulator never exceeds the number of recipe
ingredients (each per-ingredient credit is at most 1). -/
theorem match_contribution_le_one (augmented : List String) (s : Bool) (ingr : String) :
    match_contribution augmented s ingr ≤ 1 := by
  unfold match_contribution
  split
  · norm_num
  · split
    · split
      · split <;> norm_num
      · norm_num
    · norm_num

/-! ## Claim theorems: the Match Scorer -/

/-- C1 (strict-mode gate): with `willing_to_buy_more = false` the score is
exactly 1 when the normalized non-default recipe ingredients form a subset
of the normalized explicit user ingredients and exactly 0 otherwise; in
particular it is always 0 or 1, and appending recipe ingredients whose
normalized form is a default ingredient never changes it. -/
theorem strict_mode_gate (u r : List String) (s : Bool) (beta : ℚ) :
    (ingredient_match_score u r s false beta =
      if ∀ x ∈ recipe_non_default_of r, x ∈ user_explicit_of u then 1 else 0)
    ∧ (ingredient_match_score u r s false beta = 0 ∨
        ingredient_match_score u r s false beta = 1)
    ∧ (∀ d : List String, (∀ x ∈ d, lowerStrip x ∈ DEFAULT_INGREDIENTS) →
        ingredient_match_score u (r ++ d) s false beta =
          ingredient_match_score u r s false beta) := by
  have hchar : ∀ rr : List String, ingredient_match_score u rr s false beta =
      if ∀ x ∈ recipe_non_default_of rr, x ∈ user_explicit_of u then 1 else 0 := by
    intro rr
    unfold ingredient_match_score
    by_cases h : ∀ x ∈ recipe_non_default_of rr, x ∈ user_explicit_of u
    · have hb : (recipe_non_default_of rr).all
          (fun x => (user_explicit_of u).contains x) = true := by
        simp only [List.all_eq_true]
        intro x hx
        simpa using h x hx
      rw [hb]
      simp
      rw [if_pos h]
    · have hb : (recipe_non_default_of rr).all
          (fun x => (user_explicit_of u).contains x) = false := by
        rw [Bool.eq_false_iff]
        intro hall
        apply h
        intro x hx
        have := List.all_eq_true.mp hall x hx
        simpa using this
      rw [hb]
      simp [h]
  refine ⟨hchar r, ?_, ?_⟩
  · rw [hchar r]
    split
    · right; rfl
    · left; rfl
  · intro d hd
    have hnd : recipe_non_default_of (r ++ d) = recipe_non_default_of r := by
      unfold recipe_non_default_of
      rw [List.map_append, List.filter_append]
      have hz : (d.map lowerStrip).filter
          (fun x => !(DEFAULT_INGREDIENTS.contains x)) = [] := by
        rw [List.filter_eq_nil_iff]
        intro a ha
        rcases List.mem_map.mp ha with ⟨y, hy, rfl⟩
        simp [hd y hy]
      rw [hz, List.append_nil]
    rw [hchar (r ++ d), hchar r, hnd]

/-- C1 witness: concrete instantiation — a strict-mode recipe extended by
the default ingredients "water" and "salt" keeps its score. -/
theorem strict_mode_gate_witness :
    ingredient_match_score ["yeast", "flour"] (["flour", "yeast"] ++ ["water", "salt"])
        false false (1/5) =
      ingredient_match_score ["yeast", "flour"] ["flour", "yeast"] false false (1/5) :=
  (strict_mode_gate ["yeast", "flour"] ["flour", "yeast"] false (1/5)).2.2
    ["water", "salt"] (by decide)

/-- C2 (bound): for every user list, recipe list and pair of policy flags,
with beta = 0.2 the match score lies in [0, 1]. -/
theorem score_in_unit_interval (u r : List String) (s w : Bool) :
    0 ≤ ingredient_match_score u r s w (1/5) ∧
      ingredient_match_score u r s w (1/5) ≤ 1 := by
  unfold ingredient_match_score
  cases w
  · constructor <;> simp only [Bool.not_false, if_true] <;> split <;> norm_num
  · simp only [Bool.not_true, Bool.false_eq_true, if_false]
    split
    · norm_num
    · constructor
      · refine le_min ?_ (by norm_num)
        apply mul_nonneg
        · exact div_nonneg (matched_score_nonneg u r s) (by positivity)
        · have hb := bonus_of_nonneg u r
          nlinarith
      · exact min_le_right _ _

/-- C3 (per-ingredient credit and substitution half-credit): the `matched`
accumulator is the sum over the recipe list (unnormalized, duplicates
kept) of the claimed per-ingredient credit — 1 for a direct match against
the augmented set, else 1/2 when substitutions are allowed and some
substitute of the ingredient's substitution-table entry is in the
augmented set, else 0 — and concretely the score for
user ["almond milk"], recipe ["milk"], substitutions allowed, flexible
mode, is 1/2. -/
theorem flexible_match_credit :
    (∀ (u r : List String) (s : Bool),
      matched_score u r s = ((r.map (match_contribution (augmented_of u) s)).sum))
    ∧ ingredient_match_score ["almond milk"] ["milk"] true true (1/5) = 1/2 := by
  constructor
  · exact matched_score_eq_sum
  · simp +decide [ingredient_match_score, matched_score, bonus_of, augmented_of,
      user_explicit_of, DEFAULT_INGREDIENTS, SUBSTITUTIONS, lowerStrip_milk, List.lookup]
    norm_num

/-- C4 (flexible final formula): in flexible mode the score is the base
score times `1 + beta * bonus`, capped at 1, where the bonus is the count
of recipe ingredients whose normalized form is in the explicit set divided
by the size of the explicit set (0 when that set is empty); concretely,
with beta = 0.2, user {"milk"} and recipe ["milk", "flour"], the score is
3/5 for either substitution setting. -/
theorem flexible_final_formula :
    (∀ (u r : List String) (s : Bool) (beta : ℚ),
      ingredient_match_score u r s true beta =
        if r.length = 0 then 1
        else min ((matched_score u r s / (r.length : ℚ)) * (1 + beta * bonus_of u r)) 1)
    ∧ (∀ u r : List String,
        bonus_of u r =
          if user_explicit_of u = [] then 0
          else ((r.filter (fun i => decide (lowerStrip i ∈ user_explicit_of u))).length : ℚ) /
            ((user_explicit_of u).length : ℚ))
    ∧ (∀ s : Bool, ingredient_match_score ["milk"] ["milk", "flour"] s true (1/5) = 3/5) := by
  refine ⟨?_, ?_, ?_⟩
  · intro u r s beta
    rfl
  · intro u r
    unfold bonus_of
    by_cases he : user_explicit_of u = []
    · simp [he]
    · rw [if_neg (by simpa [List.isEmpty_iff] using he), if_neg he]
      have hf : List.filter (fun ingr => (user_explicit_of u).contains (lowerStrip ingr)) r =
          List.filter (fun i => decide (lowerStrip i ∈ user_explicit_of u)) r := by
        apply List.filter_congr
        intro x hx
        simp
      rw [hf]
  · intro s
    cases s <;>
      simp +decide [ingredient_match_score, matched_score, bonus_of, augmented_of,
        user_explicit_of, DEFAULT_INGREDIENTS, SUBSTITUTIONS, lowerStrip_milk,
        lowerStrip_flour, List.lookup] <;>
      norm_num

/-- C10 (strict mode ignores the substitution policy and the bonus
weight): with `willing_to_buy_more = false` the score is identical across
any two substitution settings and any two beta values. -/
theorem strict_gate_policy_blind (u r : List String) (s1 s2 : Bool) (b1 b2 : ℚ) :
    ingredient_match_score u r s1 false b1 = ingredient_match_score u r s2 false b2 := rfl

/-! ## Claim theorems: scoring stage and corpus filter -/

/-- C5 (effective-ingredient union): every recipe entering the scoring
stage is scored on a duplicate-free list whose members are exactly the
union of its canonical and raw ingredient sequences, the score being the
match scorer applied to that list with the in-scope user ingredients and
the two policy flags (beta = 0.2 as passed at incase.py line 281). -/
theorem effective_union_scoring (u : List String) (s w : Bool)
    (corpus : List Recipe) (r : Recipe) (h : r ∈ corpus) :
    ∃ l : List String, l.Nodup ∧
      (∀ x, x ∈ l ↔ (x ∈ r.ingredients ∨ x ∈ r.ingredients_raw)) ∧
      (r, ingredient_match_score u l s w (1/5)) ∈ score_stage u s w corpus := by
  refine ⟨effective_ingredients r, List.nodup_dedup _, ?_, ?_⟩
  · intro x
    simp [effective_ingredients]
  · unfold score_stage
    exact List.mem_map.mpr ⟨r, h, rfl⟩

/-- C5 witness: the union scoring instantiated on a concrete corpus
containing `breadRecipe`. -/
theorem effective_union_scoring_witness :
    ∃ l : List String, l.Nodup ∧
      (∀ x, x ∈ l ↔ (x ∈ breadRecipe.ingredients ∨ x ∈ breadRecipe.ingredients_raw)) ∧
      (breadRecipe, ingredient_match_score SAMPLE_INGREDIENTS l false false (1/5)) ∈
        score_stage SAMPLE_INGREDIENTS false false [breadRecipe] :=
  effective_union_scoring SAMPLE_INGREDIENTS false false [breadRecipe] breadRecipe
    (by simp)

/-- Mapping a never-raising classifier over a batch yields the pointwise
label list. -/
theorem predict_batched_ok (f : String → String) (l : List String) :
    predict_batched (fun s => Except.ok (f s)) l = Except.ok (l.map f) := by
  unfold predict_batched
  induction l with
  | nil => rfl
  | cons x xs ih => rw [List.mapM_cons, ih]; rfl

/-- With positionally carried labels obtained by mapping the two oracles
over the corpus, the row filter is a plain `List.filter`. -/
theorem matching_of_map (cf mf : String → String) (sc sm : String)
    (corpus : List Recipe) :
    matching_of corpus (corpus.map (fun r => cf (ingredients_raw_text r)))
        (corpus.map (fun r => mf (full_text r))) sc sm =
      corpus.filter (fun r =>
        (pyLower (cf (ingredients_raw_text r)) == sc) &&
          (pyLower (mf (full_text r)) == sm)) := by
  induction corpus with
  | nil => rfl
  | cons r tl ih =>
      unfold matching_of at ih ⊢
      simp only [List.map_cons, List.zip_cons_cons, List.filter_cons]
      cases hp : (pyLower (cf (ingredients_raw_text r)) == sc &&
          pyLower (mf (full_text r)) == sm) <;>
        simp [hp, ih]

/-- C7 counterexample: the Corpus Filter does NOT pass one shared feature
text to both oracles.  With a cuisine oracle that answers "italian"
exactly on `snackRecipe`'s raw-ingredient text ("b") and "french" on any
other text (in particular on the full feature text "a b c"), the source
filter keeps the recipe while the claimed shared-feature-text filter
discards it. -/
theorem corpus_filter_shared_text_refuted :
    corpus_filter raw_sensitive_clf (const_clf "snacks") "italian" "snacks"
        [snackRecipe] = Except.ok [snackRecipe]
    ∧ corpus_filter_claimed raw_sensitive_clf (const_clf "snacks") "italian" "snacks"
        [snackRecipe] = Except.ok [] := by
  constructor <;> rfl

/-- C7 amended: the Corpus Filter feeds the cuisine oracle the
raw-ingredient text and the meal-type oracle the concatenated feature
text (canonical ingredients, raw ingredients, steps); it keeps exactly
the recipes whose two lowercased predicted labels equal the selected
cuisine and meal-type targets. -/
theorem corpus_filter_characterization (cf mf : String → String) (sc sm : String)
    (corpus : List Recipe) :
    corpus_filter (fun s => Except.ok (cf s)) (fun s => Except.ok (mf s)) sc sm corpus =
      Except.ok (corpus.filter (fun r =>
        (pyLower (cf (ingredients_raw_text r)) == sc) &&
          (pyLower (mf (full_text r)) == sm))) := by
  unfold corpus_filter
  rw [predict_batched_ok, predict_batched_ok]
  show Except.ok (matching_of corpus _ _ sc sm) = _
  simp only [List.map_map, Function.comp_def]
  rw [matching_of_map]

/-! ## Claim theorems: orchestrator terminal states and oracle failure -/

/-- Once the corpus-filter step has produced `matching`, the orchestrator
body is the empty-check / strict-filter / ranking cascade of incase.py
lines 252-344. -/
theorem get_recommendations_body_eq (cuisine_clf meal_clf : String → Except String String)
    (infer : String → ℚ → String → Except String (Option ℚ))
    (prefs : Prefs) (recipe_db : List Recipe) (matching : List Recipe)
    (h : corpus_filter cuisine_clf meal_clf (pyLower prefs.cuisine)
        (selected_meal_type_of prefs) recipe_db = Except.ok matching) :
    get_recommendations_body cuisine_clf meal_clf infer prefs recipe_db =
      if matching.isEmpty then Except.ok (none, none)
      else
        if !prefs.use_grocery &&
            (kept_of prefs.use_grocery (score_stage SAMPLE_INGREDIENTS
              prefs.allow_substitutions prefs.use_grocery matching)).isEmpty then
          Except.ok (none, none)
        else
          rank_stage infer prefs.servings
            (kept_of prefs.use_grocery (score_stage SAMPLE_INGREDIENTS
              prefs.allow_substitutions prefs.use_grocery matching)) := by
  unfold get_recommendations_body
  rw [h]
  rfl

/-- C8 (defined empty terminal states): when the cuisine/meal-type filter
leaves no recipes, the body succeeds with `(none, none)` for EVERY
relevance oracle — so no ranking-oracle call is made — and, in strict
mode, every recipe with `ingredient_score ≤ 0` is dropped and an empty
remainder likewise ends the run with the non-error `(none, none)`. -/
theorem empty_terminal_states (cuisine_clf meal_clf : String → Except String String)
    (prefs : Prefs) (recipe_db : List Recipe) :
    (corpus_filter cuisine_clf meal_clf (pyLower prefs.cuisine)
        (selected_meal_type_of prefs) recipe_db = Except.ok [] →
      ∀ infer, get_recommendations_body cuisine_clf meal_clf infer prefs recipe_db =
          Except.ok (none, none)
        ∧ get_recommendations cuisine_clf meal_clf infer prefs recipe_db = (none, none))
    ∧ (∀ matching : List Recipe,
        corpus_filter cuisine_clf meal_clf (pyLower prefs.cuisine)
          (selected_meal_type_of prefs) recipe_db = Except.ok matching →
        prefs.use_grocery = false →
        (∀ rs : Recipe × ℚ,
          rs ∈ kept_of prefs.use_grocery (score_stage SAMPLE_INGREDIENTS
              prefs.allow_substitutions prefs.use_grocery matching) ↔
            rs ∈ score_stage SAMPLE_INGREDIENTS prefs.allow_substitutions
                prefs.use_grocery matching ∧ 0 < rs.2)
        ∧ (kept_of prefs.use_grocery (score_stage SAMPLE_INGREDIENTS
              prefs.allow_substitutions prefs.use_grocery matching) = [] →
            ∀ infer, get_recommendations_body cuisine_clf meal_clf infer prefs recipe_db =
                Except.ok (none, none)
              ∧ get_recommendations cuisine_clf meal_clf infer prefs recipe_db =
                  (none, none))) := by
  constructor
  · intro h infer
    have hb := get_recommendations_body_eq cuisine_clf meal_clf infer prefs recipe_db [] h
    simp only [List.isEmpty_nil, if_true] at hb
    refine ⟨hb, ?_⟩
    unfold get_recommendations
    rw [hb]
  · intro matching h hg
    constructor
    · intro rs
      rw [hg]
      unfold kept_of
      simp [List.mem_filter]
    · intro hk infer
      have hb := get_recommendations_body_eq cuisine_clf meal_clf infer prefs recipe_db
        matching h
      rw [hk] at hb
      simp only [hg, List.isEmpty_nil, Bool.not_false, Bool.and_true, if_true, ite_self] at hb
      refine ⟨hb, ?_⟩
      unfold get_recommendations
      rw [hb]

/-- C8 witness: left — no corpus row predicted as french snacks, the body
ends at `(none, none)` with the relevance oracle never consulted; right —
the filter keeps `richRecipe` but the strict gate scores it 0, it is
dropped, and the run again ends at the non-error `(none, none)`. -/
theorem empty_terminal_states_witness :
    (get_recommendations_body (const_clf "italian") (const_clf "snacks") none_infer
        frenchSnackPrefs [richRecipe] = Except.ok (none, none)
      ∧ get_recommendations (const_clf "italian") (const_clf "snacks") none_infer
          frenchSnackPrefs [richRecipe] = (none, none))
    ∧ (get_recommendations_body (const_clf "french") (const_clf "snacks") none_infer
        frenchSnackPrefs [richRecipe] = Except.ok (none, none)
      ∧ get_recommendations (const_clf "french") (const_clf "snacks") none_infer
          frenchSnackPrefs [richRecipe] = (none, none)) :=
  ⟨(empty_terminal_states (const_clf "italian") (const_clf "snacks") frenchSnackPrefs
      [richRecipe]).1 (by rfl) none_infer,
   ((empty_terminal_states (const_clf "french") (const_clf "snacks") frenchSnackPrefs
      [richRecipe]).2 [richRecipe] (by rfl) rfl).2 (by rfl) none_infer⟩

/-- C9 amended: when an oracle call raises, the try/except of incase.py
lines 346-350 catches the exception and `get_recommendations` returns
`(none, none)` — the same observable value as the two defined empty
states; no fallback score and no partial ranking is produced, but the
failure is not surfaced to the caller. -/
theorem oracle_failure_swallowed (cuisine_clf meal_clf : String → Except String String)
    (infer : String → ℚ → String → Except String (Option ℚ))
    (prefs : Prefs) (recipe_db : List Recipe) (e : String)
    (h : get_recommendations_body cuisine_clf meal_clf infer prefs recipe_db =
      Except.error e) :
    get_recommendations cuisine_clf meal_clf infer prefs recipe_db = (none, none) := by
  unfold get_recommendations
  rw [h]

/-- C9 amended witness: a raising cuisine classifier on a one-recipe
corpus is caught and yields `(none, none)`. -/
theorem oracle_failure_swallowed_witness :
    get_recommendations fail_clf (const_clf "meals") none_infer italianMealPrefs
        [richRecipe] = (none, none) :=
  oracle_failure_swallowed fail_clf (const_clf "meals") none_infer italianMealPrefs
    [richRecipe] "classifier failure" (by rfl)

/-- C9 counterexample: an oracle failure is NOT surfaced as a fatal
failure of the orchestration call.  With a raising cuisine classifier the
body aborts with the exception, yet `get_recommendations` returns
`(none, none)` — exactly its value on a successfully filtered run whose
filter keeps nothing — so a caller observing `top = none` cannot
attribute it to one of the two defined empty states. -/
theorem oracle_failure_not_fatal :
    get_recommendations_body fail_clf (const_clf "meals") none_infer italianMealPrefs
        [richRecipe] = Except.error "classifier failure"
    ∧ get_recommendations fail_clf (const_clf "meals") none_infer italianMealPrefs
        [richRecipe] = (none, none)
    ∧ get_recommendations (const_clf "french") (const_clf "meals") none_infer
        italianMealPrefs [richRecipe] = (none, none) :=
  ⟨rfl, rfl, rfl⟩
